import Mathlib

/-!
Verification of the TestApi backend (Django) against its specification.

Shallow embedding of the slug-assignment logic in `postapi/models.py`
(`Post.save`), the authentication endpoints in
`customusers/authentication.py` (`login`, `logout`, `register`,
`refresh_token`), the serializers in `customusers/serializers.py` and
`postapi/serializers.py`, and the `User` / `Post` data model.

Strings are Lean `String`s (Python `str` code points become `Char`s);
the database is an explicit list of records threaded through each
operation; HTTP responses are inductive values carrying status code and
body content.
-/

/-! ## Django slugify (django.utils.text.slugify, allow_unicode = False)

The Django implementation is:
  value = unicodedata.normalize("NFKD", value).encode("ascii", "ignore").decode("ascii")
  value = re.sub(r"[^\w\s-]", "", value.lower())
  return re.sub(r"[-\s]+", "-", value).strip("-_")

We model the NFKD-normalize-then-ascii-encode step as dropping
non-ASCII characters; this is exact whenever the input is pure ASCII
(the inputs of every theorem and counterexample below). -/

/-- Python regex `\w` restricted to ASCII: `[a-zA-Z0-9_]` (written on
code points: 97-122 is `a`-`z`, 65-90 is `A`-`Z`, 48-57 is `0`-`9`, 95
is `_`). -/
def isWordChar (c : Char) : Bool :=
  (97 ≤ c.toNat && c.toNat ≤ 122) || (65 ≤ c.toNat && c.toNat ≤ 90) ||
  (48 ≤ c.toNat && c.toNat ≤ 57) || c.toNat = 95

/-- Python regex `\s` restricted to ASCII: space, tab, LF, CR, FF, VT. -/
def isPySpace (c : Char) : Bool :=
  (c.toNat = 32 || c.toNat = 9 || c.toNat = 10 || c.toNat = 13 ||
   c.toNat = 12 || c.toNat = 11)

/-- A character collapsed by `re.sub(r"[-\s]+", "-", ...)`: whitespace
or the hyphen (code point 45). -/
def isSepChar (c : Char) : Bool := isPySpace c || c.toNat = 45

/-- A character removed by `.strip("-_")`: `-` (45) or `_` (95). -/
def isStripChar (c : Char) : Bool := (c.toNat = 45 || c.toNat = 95)

/-- `re.sub(r"[-\s]+", "-", ...)` on a character list: each maximal run
of hyphens/whitespace becomes a single hyphen.  `prevSep` records
whether the previous character belonged to such a run. -/
def collapseSep : Bool → List Char → List Char
  | _, [] => []
  | prevSep, c :: rest =>
    if isSepChar c then
      if prevSep then collapseSep true rest
      else '-' :: collapseSep true rest
    else
      c :: collapseSep false rest

/-- Drop the characters satisfying `p` from both ends (the shape of
Python's `strip`). -/
def dropEnds (p : Char → Bool) (l : List Char) : List Char :=
  ((l.dropWhile p).reverse.dropWhile p).reverse

/-- Python `.strip("-_")`: remove leading and trailing `-`/`_`. -/
def stripHyphUnd (l : List Char) : List Char :=
  dropEnds isStripChar l

/-- Python `str.strip()` with no argument: remove leading and trailing
whitespace (ASCII-faithful). -/
def pyStrip (s : String) : String :=
  ⟨dropEnds isPySpace s.data⟩

/-- `django.utils.text.slugify` on the character list of the input
(ASCII-faithful; see module comment). -/
def slugifyList (l : List Char) : List Char :=
  stripHyphUnd (collapseSep false
    (((l.filter (fun c => c.toNat < 128)).map Char.toLower).filter
      (fun c => isWordChar c || isPySpace c || c.toNat = 45)))

/-- `django.utils.text.slugify` on strings. -/
def slugify (s : String) : String := ⟨slugifyList s.data⟩

/-! ## Decimal rendering of the loop counter (Python `f"{base_slug}-{counter}"`) -/

/-- Decimal digits of `n`, most significant first, computed with
structural fuel (`fuel > n` suffices). -/
def natDigitsAux : Nat → Nat → List Char
  | 0, _ => []
  | fuel + 1, n =>
    if n < 10 then [Nat.digitChar n]
    else natDigitsAux fuel (n / 10) ++ [Nat.digitChar (n % 10)]

/-- Python `str(n)` for a natural number. -/
def natToStr (n : Nat) : String := ⟨natDigitsAux (n + 1) n⟩

/-! ## The collision loop of `Post.save` (postapi/models.py lines 47-57)

    if not self.slug:
        base_slug = slugify(self.title)
        slug = base_slug
        counter = 1
        while Post.objects.filter(slug=slug).exists:
            slug = f"{base_slug}-{counter}"
            counter += 1
        self.slug = slug

The loop is modelled with explicit fuel; `none` means the loop has not
exited within the given number of iterations (for a condition that is
eventually false, a large enough fuel returns `some`). -/

/-- One candidate-generating loop, generic in the loop condition
`check`.  Mirrors the `while` above: test `check slug`; if true, move to
`f"{base}-{counter}"` and increment the counter. -/
def slugLoop (check : String → Bool) (base : String) :
    String → Nat → Nat → Option String
  | slug, _, 0 => none
  | slug, counter, fuel + 1 =>
    if check slug then slugLoop check base (base ++ "-" ++ natToStr counter) (counter + 1) fuel
    else some slug

/-- The loop condition actually written in the source:
`Post.objects.filter(slug=slug).exists` — the `exists` METHOD is
referenced, not called, and a bound method object is always truthy in
Python, so the condition holds for every candidate regardless of the
database contents. -/
def existsAttrTruthy (slug : String) : Bool := true

/-- The slug computation `Post.save` actually performs for a post with
an empty slug: the collision loop with the always-true condition. -/
def postSaveSlugLoop (title : String) (fuel : Nat) : Option String :=
  slugLoop existsAttrTruthy (slugify title) (slugify title) 1 fuel

/-- `Post.save` never assigns a slug to a slugless post with this
title: the loop runs out of any amount of fuel. -/
def saveNeverAssigns (title : String) : Prop :=
  ∀ fuel : Nat, postSaveSlugLoop title fuel = none

/-- The loop condition the comment `# Ensuers unique slug` intends:
`Post.objects.filter(slug=slug).exists()` — true iff some persisted
post already holds the candidate slug. -/
def existsCalled (taken : List String) (slug : String) : Bool :=
  taken.contains slug

/-- Slug assignment under the intended (called) existence check, for a
database whose persisted slugs are `taken`. -/
def assignSlug (taken : List String) (title : String) (fuel : Nat) : Option String :=
  slugLoop (existsCalled taken) (slugify title) (slugify title) 1 fuel

/-! ## The excerpt step of `Post.save` (postapi/models.py lines 59-60)

    if not self.excerpt and self.body:
        self.excerpt = self.body[:297] + "..." if len(self.body) > 300 else self.body
-/

/-- The excerpt assignment of `Post.save`. -/
def excerptStep (excerpt body : String) : String :=
  if excerpt = "" ∧ body ≠ "" then
    if body.length > 300 then ⟨body.data.take 297⟩ ++ "..." else body
  else excerpt

/-! ## Post records and the update endpoint

`Post` fields relevant to the claims (postapi/models.py); the update
endpoint is `PostViewSet` with `PostUpdateSerializer`
(postapi/serializers.py lines 57-76), whose `Meta.fields` include
`slug` with `extra_kwargs = {'slug': {'required': False}, ...}` — i.e.
`slug` is a writable, optional field.  `ModelSerializer.update` copies
each validated field onto the instance and calls `instance.save()`
(which runs `Post.save` above).  Field-level validation (slug format,
uniqueness) is not modelled; every concrete slug used below passes it. -/

structure PostRec where
  title : String
  slug : String
  body : String
  excerpt : String
deriving DecidableEq

/-- The payload of an update request: `none` means the field was not
supplied (all four are optional on update). -/
structure PostUpdateData where
  title : Option String := none
  slug : Option String := none
  body : Option String := none
  excerpt : Option String := none
deriving DecidableEq

/-- `ModelSerializer.update`: `setattr` for each supplied field. -/
def applyUpdate (p : PostRec) (d : PostUpdateData) : PostRec :=
  { title := d.title.getD p.title
    slug := d.slug.getD p.slug
    body := d.body.getD p.body
    excerpt := d.excerpt.getD p.excerpt }

/-- `Post.save` (postapi/models.py lines 45-62): the slug branch runs
only when `slug` is empty; then the excerpt step; `none` means the
call never returns (the collision loop exhausts any fuel). -/
def postSave (p : PostRec) (fuel : Nat) : Option PostRec :=
  match (if p.slug = "" then postSaveSlugLoop p.title fuel else some p.slug) with
  | none => none
  | some s => some { p with slug := s, excerpt := excerptStep p.excerpt p.body }

/-- The post-update operation: apply the validated payload, then save. -/
def updatePost (p : PostRec) (d : PostUpdateData) (fuel : Nat) : Option PostRec :=
  postSave (applyUpdate p d) fuel

/-! ## Slug character classes (spec §8: `[a-z0-9-]+`, no edge hyphen)

Character comparisons are written on `Char.toNat`; e.g. `97 ≤ c.toNat ∧
c.toNat ≤ 122` is exactly `'a' ≤ c ∧ c ≤ 'z'`. -/

/-- `[a-z0-9]`. -/
def isLowerDigit (c : Char) : Bool :=
  (97 ≤ c.toNat && c.toNat ≤ 122) || (48 ≤ c.toNat && c.toNat ≤ 57)

/-- Character class of the spec's regex `[a-z0-9-]`. -/
def isSlugReChar (c : Char) : Bool := isLowerDigit c || c.toNat = 45

/-- Character class `[a-z0-9_-]` (the class Django slugify actually
produces: regex `\w` keeps underscores). -/
def isSlugAmChar (c : Char) : Bool := isSlugReChar c || c.toNat = 95

/-- The spec's property: matches `[a-z0-9-]+`. -/
def matchesSlugRe (s : String) : Bool := !s.data.isEmpty && s.data.all isSlugReChar

/-- Matches `[a-z0-9_-]+`. -/
def matchesSlugAm (s : String) : Bool := !s.data.isEmpty && s.data.all isSlugAmChar

/-- No leading or trailing hyphen, and no leading or trailing
underscore either. -/
def noEdgeStrip (s : String) : Bool :=
  s.data.head?.all (fun c => !isStripChar c) &&
  s.data.getLast?.all (fun c => !isStripChar c)

/-- ASCII alphanumeric (`[A-Za-z0-9]`). -/
def isAsciiAlnum (c : Char) : Bool :=
  (65 ≤ c.toNat && c.toNat ≤ 90) || (97 ≤ c.toNat && c.toNat ≤ 122) ||
  (48 ≤ c.toNat && c.toNat ≤ 57)

/-- The title is pure ASCII (where the slugify embedding is exact). -/
def asciiString (s : String) : Bool := s.data.all (fun c => c.toNat < 128)

/-! ## Users and authentication (customusers/)

`User` extends `AbstractUser` (customusers/models.py): `username` is
unique (DB constraint inherited from `AbstractUser`), `email` is NOT
unique.  The stored password hash is modelled by the plaintext it
hashes; `check_password` becomes string equality. -/

structure UserRec where
  id : Nat
  username : String
  email : String
  password : String
  is_active : Bool
deriving DecidableEq

/-- The DB constraint `AbstractUser.username` carries (`unique=True`):
no two persisted users share a username. -/
def usernamesUnique (users : List UserRec) : Prop :=
  (users.map (fun u => u.username)).Nodup

instance (users : List UserRec) : Decidable (usernamesUnique users) := by
  unfold usernamesUnique
  infer_instance

/-- Django `authenticate` with the default `ModelBackend`: fetch the
user by (unique) username; succeed iff the password checks and
`user_can_authenticate` (i.e. `is_active`) holds. -/
def authenticate (users : List UserRec) (username password : String) : Option UserRec :=
  match users.find? (fun u => u.username == username) with
  | none => none
  | some u => if u.password == password && u.is_active then some u else none

/-- The active users holding a given email address. -/
def activeByEmail (users : List UserRec) (e : String) : List UserRec :=
  users.filter (fun u => u.email == e && u.is_active)

/-- `User.objects.get(email=..., is_active=True)` as used in `login`:
the user iff exactly one row matches.  Zero rows raise
`User.DoesNotExist`, caught by the inner `except` and skipped; two or
more raise `MultipleObjectsReturned`, caught by the outer
`except Exception` — both continue to the generic 401, so both are
`none` here. -/
def getByEmailActive (users : List UserRec) (e : String) : Option UserRec :=
  match activeByEmail users e with
  | [u] => some u
  | _ => none

/-- Claims embedded in a JWT payload beyond the standard ones.
`RefreshToken.for_user` (used by `login` and `register`) sets only
`user_id`. -/
structure TokenClaims where
  user_id : Option Nat := none
  username : Option String := none
  email : Option String := none
deriving DecidableEq

/-- The access token `login`/`register` return: custom claims
`username`, `email`, `user_id` are written onto it
(authentication.py lines 209-213 / 134-138). -/
def accessFor (u : UserRec) : TokenClaims :=
  { user_id := some u.id, username := some u.username, email := some u.email }

/-- The refresh token `login`/`register` return
(`RefreshToken.for_user`): only `user_id`. -/
def refreshFor (u : UserRec) : TokenClaims :=
  { user_id := some u.id }

/-- The content of a `login` response (authentication.py lines
165-242): constructor ↔ the exact branch of the view. -/
inductive LoginResp
  /-- 400 `{'error': 'Username/email and password are required'}`. -/
  | missingFields
  /-- 200 with the serialized user and both tokens. -/
  | success (user : UserRec) (access : TokenClaims) (refreshTok : TokenClaims)
  /-- 401 `{'error': 'Invalid credentials or inactive account'}` — the
  single constant failure response. -/
  | invalidCredentials
deriving DecidableEq

/-- HTTP status code of a `login` response. -/
def LoginResp.statusCode : LoginResp → Nat
  | .missingFields => 400
  | .success _ _ _ => 200
  | .invalidCredentials => 401

/-- The `login` view: strip the identifier, reject missing fields,
authenticate as username, fall back to a unique-active-email lookup
re-authenticated under that user's username, and answer with the
generic 401 on any failure (including exceptions caught at line 236). -/
def login (users : List UserRec) (identifier password : String) : LoginResp :=
  let ident := pyStrip identifier
  if ident = "" ∨ password = "" then .missingFields
  else
    let user :=
      match authenticate users ident password with
      | some u => some u
      | none =>
        match getByEmailActive users ident with
        | some userObj => authenticate users userObj.username password
        | none => none
    match user with
    | some u =>
      if u.is_active then .success u (accessFor u) (refreshFor u)
      else .invalidCredentials
    | none => .invalidCredentials

/-- Some user may log in with this identifier and password through
either path of the view: a matching username or a matching email, with
the right password, on an active account. -/
def loginSucceedsFor (users : List UserRec) (ident password : String) : Prop :=
  ∃ u ∈ users, (u.username = ident ∨ u.email = ident) ∧
    u.password = password ∧ u.is_active = true

instance (users : List UserRec) (ident password : String) :
    Decidable (loginSucceedsFor users ident password) := by
  unfold loginSucceedsFor
  infer_instance

/-! ## Logout and the revocation store

`logout` (authentication.py lines 245-272) builds
`RefreshToken(refresh_token)`; with the blacklist app, construction
verifies the token (signature, expiry, `check_blacklist`) and raises
`TokenError` for a blacklisted token — caught by the `except`, giving
400 `'Invalid token'`.  On success `token.blacklist()` records the
token id in the revocation store.  Spec §3: "a revoked token fails all
future validation even if otherwise well-formed and unexpired."
A refresh token is its identifier `jti` plus a flag `valid` standing
for "well-formed signature and unexpired". -/

structure RefreshTok where
  jti : String
  valid : Bool
deriving DecidableEq

/-- The content of a `logout` response. -/
inductive LogoutResp
  /-- 200 `{'message': 'Successfully logged out'}`. -/
  | success
  /-- 400 `{'error': 'Refresh token required'}`. -/
  | missingToken
  /-- 400 `{'error': 'Invalid token'}` (the `except` branch). -/
  | invalidToken
deriving DecidableEq

/-- The `logout` view over the revocation store `blacklist` (the list
of revoked token ids); returns the response and the new store. -/
def logout (blacklist : List String) (tok : Option RefreshTok) :
    LogoutResp × List String :=
  match tok with
  | none => (.missingToken, blacklist)
  | some t =>
    if t.valid && !(blacklist.contains t.jti) then
      (.success, t.jti :: blacklist)
    else
      (.invalidToken, blacklist)

/-! ## Registration (customusers/serializers.py, authentication.py lines 107-162) -/

/-- The fields of a register request (profile extras omitted). -/
structure RegisterData where
  username : String
  email : String
  password : String
  password_confirm : String
deriving DecidableEq

/-- `UserCreateSerializer.is_valid()`: required fields present,
`validate_password` strength (delegated, hence a parameter `strong`),
the `UniqueValidator` on `username` (from `unique=True`; `email` has no
uniqueness validator), and `validate`'s cross-field check
`password == password_confirm`. -/
def registerValid (strong : String → Bool) (users : List UserRec)
    (d : RegisterData) : Bool :=
  !(d.username == "") && !(d.email == "") &&
  !(d.password == "") && !(d.password_confirm == "") &&
  strong d.password &&
  users.all (fun u => !(u.username == d.username)) &&
  (d.password == d.password_confirm)

/-- The content of a `register` response. -/
inductive RegisterResp
  /-- 201 with the serialized user and both tokens. -/
  | created (user : UserRec) (access : TokenClaims) (refreshTok : TokenClaims)
  /-- 400 `serializer.errors`. -/
  | validationError
deriving DecidableEq

/-- The `register` view: on valid data create the user
(`create_user`, active by default, fresh id) and answer 201 with
tokens; otherwise answer 400 and leave the store untouched. -/
def register (strong : String → Bool) (users : List UserRec)
    (d : RegisterData) : RegisterResp × List UserRec :=
  if registerValid strong users d then
    let u : UserRec :=
      { id := users.length + 1, username := d.username, email := d.email
        password := d.password, is_active := true }
    (.created u (accessFor u) (refreshFor u), users ++ [u])
  else
    (.validationError, users)

/-! ## The custom refresh endpoint (authentication.py lines 299-345) -/

/-- A refresh token as the refresh endpoint sees it: identifier,
signature/expiry flag, and its payload claims. -/
structure RefreshTokFull where
  jti : String
  valid : Bool
  claims : TokenClaims
deriving DecidableEq

/-- The new access token of a refresh response: its claims, and
whether the fresh `refresh_time` claim was embedded. -/
structure AccessOut where
  claims : TokenClaims
  refresh_time : Bool
deriving DecidableEq

/-- The content of a `refresh_token` response. -/
inductive RefreshResp
  /-- 400 `{'error': 'Refresh token required'}`. -/
  | missingToken
  /-- 401 `{'error': 'Invalid refresh token'}`. -/
  | invalidToken
  /-- 200 `{'access': ..., 'refresh': ...}`. -/
  | ok (access : AccessOut) (refreshTok : RefreshTokFull)
deriving DecidableEq

/-- HTTP status code of a refresh response. -/
def RefreshResp.statusCode : RefreshResp → Nat
  | .missingToken => 400
  | .invalidToken => 401
  | .ok _ _ => 200

/-- The `refresh_token` view: parse the token (fails on bad
signature/expiry or blacklisted id), derive the access token — which
copies the refresh payload's claims (simplejwt copies every claim
except `token_type`/`exp`/`jti`) — then, if the embedded `user_id`
matches a user, overwrite `username`/`email`/`user_id` and add
`refresh_time`; on `User.DoesNotExist` just log and keep the copied
claims.  Answers 200 with the access token and the same refresh
token. -/
def refreshEndpoint (users : List UserRec) (blacklist : List String)
    (tok : Option RefreshTokFull) : RefreshResp :=
  match tok with
  | none => .missingToken
  | some t =>
    if t.valid && !(blacklist.contains t.jti) then
      let copied : AccessOut := { claims := t.claims, refresh_time := false }
      let access :=
        match t.claims.user_id with
        | some uid =>
          match users.find? (fun u => u.id == uid) with
          | some u =>
            { claims :=
                { user_id := some u.id, username := some u.username
                  email := some u.email }
              refresh_time := true }
          | none => copied
        | none => copied
      .ok access t
    else .invalidToken

/-! # Theorems -/

-- Sanity checks of the embedding on concrete values.
example : slugify "Hello, World!!!" = "hello-world" := by decide
example : slugify "Hello World" = "hello-world" := by decide
example : slugify "a_b" = "a_b" := by decide
example : natToStr 1 = "1" ∧ natToStr 12 = "12" ∧ natToStr 105 = "105" := by decide
example : assignSlug [] "Hello, World!!!" 5 = some "hello-world" := by decide
example : assignSlug ["hello-world"] "Hello World" 5 = some "hello-world-1" := by decide
example : assignSlug ["hello-world", "hello-world-1"] "Hello World" 5 = some "hello-world-2" := by decide

/-! ## Helper lemmas: characters -/

theorem toNat_char_ofNat {n : Nat} (h : n < 55296) : (Char.ofNat n).toNat = n := by
  have hv : n.isValidChar := Or.inl h
  rw [Char.ofNat, dif_pos hv]
  simp [Char.ofNatAux, Char.toNat, UInt32.toNat, BitVec.toNat_ofNatLt]

theorem toLower_toNat (c : Char) :
    (Char.toLower c).toNat =
      if 65 ≤ c.toNat ∧ c.toNat ≤ 90 then c.toNat + 32 else c.toNat := by
  unfold Char.toLower
  split <;> rename_i h
  · rw [if_pos h]
    exact toNat_char_ofNat (by omega)
  · rw [if_neg h]

/-- After `Char.toLower`, no character is an upper-case letter. -/
theorem toLower_not_upper (c : Char) :
    ¬(65 ≤ (Char.toLower c).toNat ∧ (Char.toLower c).toNat ≤ 90) := by
  rw [toLower_toNat]
  split <;> rename_i h <;> omega

/-- `Char.toLower` sends an ASCII alphanumeric character to `[a-z0-9]`. -/
theorem toLower_alnum {c : Char} (h : isAsciiAlnum c = true) :
    isLowerDigit (Char.toLower c) = true := by
  simp only [isAsciiAlnum, Bool.or_eq_true, Bool.and_eq_true, decide_eq_true_eq] at h
  simp only [isLowerDigit, Bool.or_eq_true, Bool.and_eq_true, decide_eq_true_eq]
  rw [toLower_toNat]
  split <;> rename_i hc <;> omega

/-! ## Helper lemmas: lists -/

theorem mem_dropWhile_of_mem {p : Char → Bool} {l : List Char} {c : Char}
    (hm : c ∈ l) (hp : p c = false) : c ∈ l.dropWhile p := by
  induction l with
  | nil => cases hm
  | cons a l ih =>
    rw [List.dropWhile_cons]
    rcases List.mem_cons.mp hm with rfl | hm2
    · rw [hp]; simp
    · split
      · exact ih hm2
      · exact List.mem_cons_of_mem _ hm2

theorem head?_dropWhile_false {p : Char → Bool} {l : List Char} {c : Char}
    (h : (l.dropWhile p).head? = some c) : p c = false := by
  have := List.head?_dropWhile_not p l
  rw [h] at this
  exact this

theorem mem_dropEnds_of_mem {p : Char → Bool} {l : List Char} {c : Char}
    (hm : c ∈ l) (hp : p c = false) : c ∈ dropEnds p l := by
  unfold dropEnds
  rw [List.mem_reverse]
  exact mem_dropWhile_of_mem (by rw [List.mem_reverse]; exact mem_dropWhile_of_mem hm hp) hp

theorem dropEnds_subset {p : Char → Bool} {l : List Char} {c : Char}
    (hm : c ∈ dropEnds p l) : c ∈ l := by
  unfold dropEnds at hm
  rw [List.mem_reverse] at hm
  have h1 := (List.dropWhile_sublist p).subset hm
  rw [List.mem_reverse] at h1
  exact (List.dropWhile_sublist p).subset h1

theorem getLast?_dropEnds {p : Char → Bool} {l : List Char} {c : Char}
    (h : (dropEnds p l).getLast? = some c) : p c = false := by
  unfold dropEnds at h
  rw [List.getLast?_reverse] at h
  exact head?_dropWhile_false h

theorem head?_dropEnds {p : Char → Bool} {l : List Char} {c : Char}
    (h : (dropEnds p l).head? = some c) : p c = false := by
  unfold dropEnds at h
  set m := l.dropWhile p with hm
  obtain ⟨t, ht⟩ := List.dropWhile_suffix (l := m.reverse) p
  have hrev : (m.reverse.dropWhile p).reverse ++ t.reverse = m := by
    have h2 := congrArg List.reverse ht
    simpa [List.reverse_append] using h2
  have hne : (m.reverse.dropWhile p).reverse ≠ [] := by
    intro hnil
    rw [hnil] at h
    cases h
  have hhead : m.head? = some c := by
    rw [← hrev, List.head?_append_of_ne_nil _ hne]
    exact h
  exact head?_dropWhile_false (hm ▸ hhead)

/-! ## Helper lemmas: the slugify pipeline -/

/-- Every character `collapseSep` emits is either the hyphen it
substitutes for a run, or an input character that is not a
separator. -/
theorem mem_collapseSep {l : List Char} {c : Char} :
    ∀ {prev : Bool}, c ∈ collapseSep prev l →
      c.toNat = 45 ∨ (c ∈ l ∧ isSepChar c = false) := by
  induction l with
  | nil => intro prev h; cases h
  | cons a l ih =>
    intro prev h
    rw [collapseSep] at h
    by_cases ha : isSepChar a = true
    · rw [if_pos ha] at h
      rcases hp : prev with _ | _
      · rw [hp] at h
        rcases List.mem_cons.mp h with rfl | h2
        · left; rfl
        · rcases ih h2 with h45 | ⟨hm, hns⟩
          · left; exact h45
          · right; exact ⟨List.mem_cons_of_mem _ hm, hns⟩
      · rw [hp] at h
        rcases ih h with h45 | ⟨hm, hns⟩
        · left; exact h45
        · right; exact ⟨List.mem_cons_of_mem _ hm, hns⟩
    · rw [if_neg ha] at h
      rcases List.mem_cons.mp h with rfl | h2
      · right
        exact ⟨List.mem_cons_self _ _, Bool.eq_false_iff.mpr ha⟩
      · rcases ih h2 with h45 | ⟨hm, hns⟩
        · left; exact h45
        · right; exact ⟨List.mem_cons_of_mem _ hm, hns⟩

/-- `collapseSep` keeps every non-separator input character. -/
theorem mem_collapseSep_of_mem {l : List Char} {c : Char}
    (hm : c ∈ l) (hc : isSepChar c = false) :
    ∀ prev : Bool, c ∈ collapseSep prev l := by
  induction l with
  | nil => cases hm
  | cons a l ih =>
    intro prev
    rw [collapseSep]
    rcases List.mem_cons.mp hm with rfl | h2
    · rw [if_neg (by rw [hc]; exact Bool.false_ne_true)]
      exact List.mem_cons_self _ _
    · by_cases ha : isSepChar a = true
      · rw [if_pos ha]
        rcases prev with _ | _
        · exact List.mem_cons_of_mem _ (ih h2 true)
        · exact ih h2 true
      · rw [if_neg ha]
        exact List.mem_cons_of_mem _ (ih h2 false)

/-- Every character of a slugified string lies in `[a-z0-9_-]`. -/
theorem slugifyList_chars {l : List Char} {c : Char}
    (h : c ∈ slugifyList l) : isSlugAmChar c = true := by
  unfold slugifyList stripHyphUnd at h
  have hcol := dropEnds_subset h
  rcases mem_collapseSep hcol with h45 | ⟨hm, hns⟩
  · simp [isSlugAmChar, isSlugReChar, h45]
  · rcases List.mem_filter.mp hm with ⟨hmap, hkept⟩
    obtain ⟨c0, hc0, rfl⟩ := List.mem_map.mp hmap
    simp only [isWordChar, isPySpace, Bool.or_eq_true, Bool.and_eq_true,
      decide_eq_true_eq] at hkept
    simp only [isSepChar, isPySpace, Bool.or_eq_false_iff,
      decide_eq_false_iff_not] at hns
    have hnu := toLower_not_upper c0
    simp only [isSlugAmChar, isSlugReChar, isLowerDigit, Bool.or_eq_true,
      Bool.and_eq_true, decide_eq_true_eq]
    omega

/-- The first character of a slugified string is neither `-` nor `_`. -/
theorem slugifyList_head {l : List Char} {c : Char}
    (h : (slugifyList l).head? = some c) : isStripChar c = false := by
  unfold slugifyList stripHyphUnd at h
  exact head?_dropEnds h

/-- The last character of a slugified string is neither `-` nor `_`. -/
theorem slugifyList_getLast {l : List Char} {c : Char}
    (h : (slugifyList l).getLast? = some c) : isStripChar c = false := by
  unfold slugifyList stripHyphUnd at h
  exact getLast?_dropEnds h

/-- A title containing an ASCII alphanumeric character slugifies to a
non-empty string. -/
theorem slugifyList_ne_nil {l : List Char} {c : Char}
    (hm : c ∈ l) (hc : isAsciiAlnum c = true) : slugifyList l ≠ [] := by
  have hlt : c.toNat < 128 := by
    simp only [isAsciiAlnum, Bool.or_eq_true, Bool.and_eq_true, decide_eq_true_eq] at hc
    omega
  have h1 : c ∈ l.filter (fun c => c.toNat < 128) := by
    rw [List.mem_filter]
    exact ⟨hm, by simpa using hlt⟩
  have h2 : Char.toLower c ∈ (l.filter (fun c => c.toNat < 128)).map Char.toLower :=
    List.mem_map_of_mem _ h1
  have hld : isLowerDigit (Char.toLower c) = true := toLower_alnum hc
  simp only [isLowerDigit, Bool.or_eq_true, Bool.and_eq_true, decide_eq_true_eq] at hld
  have hword : isWordChar (Char.toLower c) = true := by
    simp only [isWordChar, Bool.or_eq_true, Bool.and_eq_true, decide_eq_true_eq]
    omega
  have h3 : Char.toLower c ∈ ((l.filter (fun c => c.toNat < 128)).map Char.toLower).filter
      (fun c => isWordChar c || isPySpace c || c.toNat = 45) := by
    rw [List.mem_filter]
    exact ⟨h2, by simp [hword]⟩
  have hnsep : isSepChar (Char.toLower c) = false := by
    simp only [isSepChar, isPySpace, Bool.or_eq_false_iff, decide_eq_false_iff_not]
    omega
  have h4 := mem_collapseSep_of_mem h3 hnsep false
  have hnstrip : isStripChar (Char.toLower c) = false := by
    simp only [isStripChar, Bool.or_eq_false_iff, decide_eq_false_iff_not]
    omega
  have h5 := mem_dropEnds_of_mem h4 hnstrip
  unfold slugifyList stripHyphUnd
  intro hnil
  rw [hnil] at h5
  cases h5

/-! ## Helper lemmas: decimal digits and the collision loop -/

theorem digitChar_range {n : Nat} (h : n < 10) :
    48 ≤ (Nat.digitChar n).toNat ∧ (Nat.digitChar n).toNat ≤ 57 := by
  interval_cases n <;> decide

theorem natDigitsAux_range : ∀ {fuel n : Nat} {c : Char},
    c ∈ natDigitsAux fuel n → 48 ≤ c.toNat ∧ c.toNat ≤ 57 := by
  intro fuel
  induction fuel with
  | zero => intro n c h; cases h
  | succ f ih =>
    intro n c h
    rw [natDigitsAux] at h
    split at h <;> rename_i hlt
    · rcases List.mem_singleton.mp h with rfl
      exact digitChar_range hlt
    · rcases List.mem_append.mp h with h1 | h1
      · exact ih h1
      · rcases List.mem_singleton.mp h1 with rfl
        exact digitChar_range (Nat.mod_lt _ (by omega))

theorem natDigitsAux_ne_nil (n : Nat) : natDigitsAux (n + 1) n ≠ [] := by
  rw [natDigitsAux]
  split
  · simp
  · simp

/-- With the truthy-method condition of the source, the collision loop
never exits, whatever the fuel, the current candidate and the
counter. -/
theorem slugLoop_true_eq_none (base : String) :
    ∀ (fuel : Nat) (slug : String) (counter : Nat),
      slugLoop existsAttrTruthy base slug counter fuel = none := by
  intro fuel
  induction fuel with
  | zero => intro slug counter; rfl
  | succ f ih =>
    intro slug counter
    simp only [slugLoop, existsAttrTruthy, if_true]
    exact ih _ _

/-- Any slug the loop returns is the candidate it started from or
`base ++ "-" ++ str m` for some counter value `m`. -/
theorem slugLoop_eq_some {check : String → Bool} {base : String} :
    ∀ (fuel counter : Nat) (slug s : String),
      slugLoop check base slug counter fuel = some s →
      s = slug ∨ ∃ m, s = base ++ "-" ++ natToStr m := by
  intro fuel
  induction fuel with
  | zero => intro counter slug s h; cases h
  | succ f ih =>
    intro counter slug s h
    rw [slugLoop] at h
    split at h
    · rcases ih (counter + 1) _ s h with h1 | h2
      · right; exact ⟨counter, h1⟩
      · right; exact h2
    · left; exact (Option.some.inj h).symm

theorem isSlugAmChar_digit {c : Char} (h : 48 ≤ c.toNat ∧ c.toNat ≤ 57) :
    isSlugAmChar c = true := by
  simp only [isSlugAmChar, isSlugReChar, isLowerDigit, Bool.or_eq_true,
    Bool.and_eq_true, decide_eq_true_eq]
  omega

theorem isStripChar_digit {c : Char} (h : 48 ≤ c.toNat ∧ c.toNat ≤ 57) :
    isStripChar c = false := by
  simp only [isStripChar, Bool.or_eq_false_iff, decide_eq_false_iff_not]
  omega

/-- The format invariant for a slug produced from a base with the
slugify output shape. -/
theorem slug_format (title : String) (s : String)
    (hal : title.data.any isAsciiAlnum = true)
    (hs : s = slugify title ∨ ∃ m, s = slugify title ++ "-" ++ natToStr m) :
    matchesSlugAm s = true ∧ noEdgeStrip s = true := by
  obtain ⟨c0, hc0m, hc0⟩ := List.any_eq_true.mp hal
  have hbase_ne : slugifyList title.data ≠ [] := slugifyList_ne_nil hc0m hc0
  rcases hs with rfl | ⟨m, rfl⟩
  · constructor
    · rw [matchesSlugAm]
      rw [Bool.and_eq_true]
      constructor
      · simpa [slugify] using hbase_ne
      · rw [List.all_eq_true]
        intro c hc
        exact slugifyList_chars hc
    · rw [noEdgeStrip, Bool.and_eq_true]
      constructor
      · rcases hh : (slugify title).data.head? with _ | ⟨c⟩
        · rfl
        · have := slugifyList_head (l := title.data) hh
          simp [Option.all, this]
      · rcases hh : (slugify title).data.getLast? with _ | ⟨c⟩
        · rfl
        · have := slugifyList_getLast (l := title.data) hh
          simp [Option.all, this]
  · have hdata : (slugify title ++ "-" ++ natToStr m).data =
        ((slugify title).data ++ ['-']) ++ natDigitsAux (m + 1) m := by
      simp [String.data_append, natToStr]
    constructor
    · rw [matchesSlugAm, Bool.and_eq_true]
      constructor
      · rw [hdata]
        simp
      · rw [List.all_eq_true]
        intro c hc
        rw [hdata] at hc
        rcases List.mem_append.mp hc with h1 | h1
        · rcases List.mem_append.mp h1 with h2 | h2
          · exact slugifyList_chars h2
          · rcases List.mem_singleton.mp h2 with rfl
            rfl
        · exact isSlugAmChar_digit (natDigitsAux_range h1)
    · rw [noEdgeStrip, Bool.and_eq_true]
      constructor
      · rw [hdata, List.head?_append_of_ne_nil _ (by simp),
          List.head?_append_of_ne_nil _ (by exact hbase_ne)]
        rcases hh : (slugify title).data.head? with _ | ⟨c⟩
        · rfl
        · have := slugifyList_head (l := title.data) hh
          simp [Option.all, this]
      · rw [hdata, List.getLast?_append_of_ne_nil _ (natDigitsAux_ne_nil m)]
        rcases hh : (natDigitsAux (m + 1) m).getLast? with _ | ⟨c⟩
        · rfl
        · have hcm : c ∈ natDigitsAux (m + 1) m :=
            List.mem_of_getLast?_eq_some hh
          have := isStripChar_digit (natDigitsAux_range hcm)
          simp [Option.all, this]

/-! ## Helper lemmas: authentication -/

/-- With unique usernames, looking a member up by its own username
finds exactly it. -/
theorem find?_username_self {users : List UserRec} {u : UserRec}
    (hn : usernamesUnique users) (hm : u ∈ users) :
    users.find? (fun v => v.username == u.username) = some u := by
  induction users with
  | nil => cases hm
  | cons a l ih =>
    rw [usernamesUnique, List.map_cons, List.nodup_cons] at hn
    rcases List.mem_cons.mp hm with rfl | h2
    · rw [List.find?_cons_of_pos]
      simp
    · have hne : a.username ≠ u.username := by
        intro he
        exact hn.1 (he ▸ List.mem_map_of_mem _ h2)
      rw [List.find?_cons_of_neg]
      · exact ih hn.2 h2
      · simp [hne]

theorem authenticate_eq_some {users : List UserRec} {un pw : String} {u : UserRec}
    (h : authenticate users un pw = some u) :
    u ∈ users ∧ u.username = un ∧ u.password = pw ∧ u.is_active = true := by
  unfold authenticate at h
  rcases hf : users.find? (fun v => v.username == un) with _ | ⟨v⟩
  · rw [hf] at h
    exact absurd h (by simp)
  · rw [hf] at h
    have h2 : (if v.password == pw && v.is_active then some v else none) = some u := h
    split at h2 <;> rename_i hcond
    · rcases Option.some.inj h2 with rfl
      have h1 := List.find?_some hf
      have h3 := List.mem_of_find?_eq_some hf
      rw [Bool.and_eq_true] at hcond
      exact ⟨h3, by simpa using h1, by simpa using hcond.1, hcond.2⟩
    · exact absurd h2 (by simp)

theorem activeByEmail_single {users : List UserRec} {e : String} {u : UserRec}
    (h : activeByEmail users e = [u]) :
    u ∈ users ∧ u.email = e ∧ u.is_active = true := by
  have hm : u ∈ activeByEmail users e := by
    rw [h]
    exact List.mem_singleton_self u
  rcases List.mem_filter.mp hm with ⟨h1, h2⟩
  rw [Bool.and_eq_true] at h2
  exact ⟨h1, by simpa using h2.1, h2.2⟩

theorem getByEmailActive_eq_some {users : List UserRec} {e : String} {u : UserRec}
    (h : getByEmailActive users e = some u) :
    u ∈ users ∧ u.email = e ∧ u.is_active = true := by
  unfold getByEmailActive at h
  rcases hae : activeByEmail users e with _ | ⟨a, t⟩
  · rw [hae] at h
    cases h
  · rcases t with _ | ⟨b, t2⟩
    · rw [hae] at h
      rcases Option.some.inj h with rfl
      exact activeByEmail_single hae
    · rw [hae] at h
      cases h

/-- When no account can log in under this identifier/password pair
(by username or by unique-active-email fallback), the view answers the
generic 401. -/
theorem login_of_not_succeeds {users : List UserRec} {identifier password : String}
    (hn : usernamesUnique users)
    (hi : pyStrip identifier ≠ "") (hp : password ≠ "")
    (hf : ¬ loginSucceedsFor users (pyStrip identifier) password) :
    login users identifier password = LoginResp.invalidCredentials := by
  unfold login
  rw [if_neg (by push_neg; exact ⟨hi, hp⟩)]
  rcases ha : authenticate users (pyStrip identifier) password with _ | ⟨u⟩
  · rcases hg : getByEmailActive users (pyStrip identifier) with _ | ⟨uo⟩
    · simp [ha, hg]
    · obtain ⟨hmu, hem, hac⟩ := getByEmailActive_eq_some hg
      have hnone : authenticate users uo.username password = none := by
        unfold authenticate
        rw [find?_username_self hn hmu]
        show (if uo.password == password && uo.is_active then some uo else none) = none
        rw [if_neg]
        intro hcond
        rw [Bool.and_eq_true] at hcond
        exact hf ⟨uo, hmu, Or.inr hem, by simpa using hcond.1, hcond.2⟩
      simp [ha, hg, hnone]
  · exfalso
    obtain ⟨hm, hun, hpw, hact⟩ := authenticate_eq_some ha
    exact hf ⟨u, hm, Or.inl hun, hpw, hact⟩

/-! # Claim theorems -/

/-- C1: the claim says the collision loop in `Post.save` terminates
and assigns a slug reported free by the existing-slug check.  In the
source the loop condition is `Post.objects.filter(slug=slug).exists` —
the method is referenced, not called, and a bound-method object is
always truthy — so for EVERY title the loop never exits (no amount of
fuel returns a slug) and `save` never reaches the assignment; the
intended behaviour the claim describes does not occur. -/
theorem c1_collision_loop_diverges (title : String) : saveNeverAssigns title := by
  intro fuel
  exact slugLoop_true_eq_none (slugify title) fuel (slugify title) 1

/-- C4: the claim's end-to-end scenario (titles "Hello, World!!!",
"Hello World", "Hello World" → slugs hello-world, hello-world-1,
hello-world-2).  The very first creation already hangs: the truthy
`.exists` loop never returns.  Under the intended called check the
scenario would produce exactly the claimed slugs, confirming the claim
describes the intent, not the code. -/
theorem c4_scenario_first_create_hangs :
    saveNeverAssigns "Hello, World!!!" ∧
    assignSlug [] "Hello, World!!!" 5 = some "hello-world" ∧
    assignSlug ["hello-world"] "Hello World" 5 = some "hello-world-1" ∧
    assignSlug ["hello-world", "hello-world-1"] "Hello World" 5 =
      some "hello-world-2" :=
  ⟨fun fuel => slugLoop_true_eq_none (slugify "Hello, World!!!") fuel _ 1,
    by decide, by decide, by decide⟩

/-- C5 counterexample: at title "a_b" the code assigns no slug at all
(the loop never exits), refuting "the slug assigned by Post.save
matches `[a-z0-9-]+`"; moreover, even under the intended called check
the assigned slug would be "a_b", whose underscore already falsifies
the `[a-z0-9-]+` format (Django slugify keeps `\w` = `[a-zA-Z0-9_]`). -/
theorem c5_counterexample :
    saveNeverAssigns "a_b" ∧
    assignSlug [] "a_b" 5 = some "a_b" ∧
    matchesSlugRe "a_b" = false :=
  ⟨fun fuel => slugLoop_true_eq_none (slugify "a_b") fuel _ 1,
    by decide, by decide⟩

/-- C5 (amended): under the intended called existence check, any slug
the collision loop assigns for an ASCII title containing at least one
ASCII alphanumeric character matches `[a-z0-9_-]+` (underscores from
the title survive slugify) and has no leading or trailing hyphen or
underscore. -/
theorem c5_assigned_slug_charset (taken : List String) (title : String)
    (fuel : Nat) (s : String)
    (_ha : asciiString title = true)
    (hal : title.data.any isAsciiAlnum = true)
    (h : assignSlug taken title fuel = some s) :
    matchesSlugAm s = true ∧ noEdgeStrip s = true :=
  slug_format title s hal (slugLoop_eq_some fuel 1 (slugify title) s h)

theorem c5_assigned_slug_charset_witness :
    asciiString "My_Post 1!" = true ∧
    "My_Post 1!".data.any isAsciiAlnum = true ∧
    assignSlug ["x"] "My_Post 1!" 3 = some "my_post-1" ∧
    matchesSlugAm "my_post-1" = true ∧ noEdgeStrip "my_post-1" = true :=
  ⟨by decide, by decide, by decide,
    c5_assigned_slug_charset ["x"] "My_Post 1!" 3 "my_post-1"
      (by decide) (by decide) (by decide)⟩

/-- C10: for a blank excerpt and non-empty body, the excerpt step of
`Post.save` stores the first 297 characters of the body followed by
"..." when the body exceeds 300 characters, the whole body otherwise,
and the result never exceeds 300 characters. -/
theorem c10_excerpt_step (body : String) (h : body ≠ "") :
    (300 < body.length → excerptStep "" body = ⟨body.data.take 297⟩ ++ "...") ∧
    (body.length ≤ 300 → excerptStep "" body = body) ∧
    (excerptStep "" body).length ≤ 300 := by
  unfold excerptStep
  rw [if_pos ⟨rfl, h⟩]
  have hlen : body.length = body.data.length := rfl
  refine ⟨?_, ?_, ?_⟩
  · intro h3
    rw [if_pos h3]
  · intro h3
    rw [if_neg (by omega)]
  · split <;> rename_i h3
    · rw [String.length_append]
      have h4 : (String.mk (body.data.take 297)).length = (body.data.take 297).length := rfl
      have h5 : ("..." : String).length = 3 := rfl
      rw [h4, h5, List.length_take]
      omega
    · omega

theorem c10_excerpt_step_witness :
    ("short body" : String) ≠ "" ∧
    excerptStep "" "short body" = "short body" ∧
    (excerptStep "" "short body").length ≤ 300 := by
  have h := c10_excerpt_step "short body" (by decide)
  exact ⟨by decide, h.2.1 (by decide), h.2.2⟩

/-- C2 counterexample: `PostUpdateSerializer` exposes `slug` as a
writable optional field, so an update whose payload carries
`slug = "custom-slug"` replaces the slug assigned at creation — the
slug is not immutable under the post-update operation. -/
theorem c2_counterexample :
    updatePost ⟨"Old title", "hello-world", "body text", "exc"⟩
        { slug := some "custom-slug" } 1 =
      some ⟨"Old title", "custom-slug", "body text", "exc"⟩ ∧
    ("custom-slug" : String) ≠ "hello-world" := by
  constructor
  · decide
  · decide

/-- C2 (amended): an update whose payload does not carry a `slug`
field — in particular a pure title edit — leaves the slug unchanged;
the slug stays whatever it was at creation. -/
theorem c2_slug_unchanged_without_slug_field (p : PostRec) (d : PostUpdateData)
    (fuel : Nat) (q : PostRec) (hs : d.slug = none) (hp : p.slug ≠ "")
    (h : updatePost p d fuel = some q) : q.slug = p.slug := by
  unfold updatePost postSave applyUpdate at h
  rw [hs] at h
  simp only [Option.getD_none] at h
  rw [if_neg hp] at h
  have h2 := Option.some.inj h
  rw [← h2]

theorem c2_slug_unchanged_witness :
    updatePost ⟨"Old title", "hello-world", "body text", "exc"⟩
        { title := some "New title" } 1 =
      some ⟨"New title", "hello-world", "body text", "exc"⟩ ∧
    (⟨"New title", "hello-world", "body text", "exc"⟩ : PostRec).slug =
      (⟨"Old title", "hello-world", "body text", "exc"⟩ : PostRec).slug :=
  ⟨by decide,
    c2_slug_unchanged_without_slug_field
      ⟨"Old title", "hello-world", "body text", "exc"⟩
      { title := some "New title" } 1
      ⟨"New title", "hello-world", "body text", "exc"⟩
      rfl (by decide) (by decide)⟩

/-- C3 counterexample: the first logout with a valid refresh token
succeeds and revokes it, but the second logout with the SAME token is
answered 400 "Invalid token", not success: re-parsing the token fails
its blacklist check (spec §3: a revoked token fails all future
validation), so logout is not an idempotent success. -/
theorem c3_counterexample :
    logout [] (some ⟨"rt1", true⟩) = (LogoutResp.success, ["rt1"]) ∧
    logout ["rt1"] (some ⟨"rt1", true⟩) = (LogoutResp.invalidToken, ["rt1"]) := by
  constructor
  · decide
  · decide

/-- C3 (amended): for any valid, not-yet-revoked refresh token the
first logout succeeds and records the token id in the revocation
store; the second logout with the same token returns the 400 "Invalid
token" error and leaves the store unchanged — the token stays revoked,
so revocation of the store entry is idempotent while the response is
not. -/
theorem c3_second_logout_rejected (bl : List String) (t : RefreshTok)
    (hv : t.valid = true) (hb : bl.contains t.jti = false) :
    logout bl (some t) = (LogoutResp.success, t.jti :: bl) ∧
    logout (t.jti :: bl) (some t) = (LogoutResp.invalidToken, t.jti :: bl) ∧
    (t.jti :: bl).contains t.jti = true := by
  have hb2 : t.jti ∉ bl := by simpa using hb
  refine ⟨?_, ?_, ?_⟩
  · simp [logout, hv, hb2]
  · simp [logout, hv, hb2]
  · simp

theorem c3_second_logout_witness :
    logout [] (some ⟨"rt9", true⟩) = (LogoutResp.success, ["rt9"]) ∧
    logout ["rt9"] (some ⟨"rt9", true⟩) = (LogoutResp.invalidToken, ["rt9"]) ∧
    (["rt9"] : List String).contains "rt9" = true :=
  c3_second_logout_rejected [] ⟨"rt9", true⟩ (by decide) (by decide)

/-- C8: when `password` differs from `password_confirm`, the
serializer's cross-field validation fails, `register` answers the 400
validation error, and the user store is returned unchanged — no user
is created by the failed call. -/
theorem c8_register_mismatch_rejected (strong : String → Bool)
    (users : List UserRec) (d : RegisterData)
    (h : d.password ≠ d.password_confirm) :
    register strong users d = (RegisterResp.validationError, users) := by
  have hb : (d.password == d.password_confirm) = false := by
    simp [h]
  unfold register registerValid
  rw [if_neg]
  simp [hb]

theorem c8_register_mismatch_witness :
    ("a" : String) ≠ "b" ∧
    register (fun _ => true) [] ⟨"alice", "alice@x.com", "a", "b"⟩ =
      (RegisterResp.validationError, []) :=
  ⟨by decide,
    c8_register_mismatch_rejected (fun _ => true) []
      ⟨"alice", "alice@x.com", "a", "b"⟩ (by decide)⟩

/-- C9: a well-formed, unexpired, non-revoked refresh token whose
embedded `user_id` matches no user still gets a 200 response carrying
an access and a refresh token; the `User.DoesNotExist` branch only
logs, so the access token keeps the claims copied from the refresh
payload — for tokens minted by `login`/`register` (whose refresh
payload has no `username`/`email` claims) the access token therefore
lacks the freshly embedded `username` and `email` claims (and the
`refresh_time` claim). -/
theorem c9_refresh_unknown_user (users : List UserRec) (bl : List String)
    (t : RefreshTokFull) (uid : Nat)
    (hv : t.valid = true) (hb : bl.contains t.jti = false)
    (huid : t.claims.user_id = some uid)
    (hno : ∀ u ∈ users, u.id ≠ uid)
    (hnu : t.claims.username = none) (hne : t.claims.email = none) :
    refreshEndpoint users bl (some t) =
      RefreshResp.ok { claims := t.claims, refresh_time := false } t ∧
    (refreshEndpoint users bl (some t)).statusCode = 200 ∧
    (AccessOut.mk t.claims false).claims.username = none ∧
    (AccessOut.mk t.claims false).claims.email = none := by
  have hfind : users.find? (fun u => u.id == uid) = none := by
    rw [List.find?_eq_none]
    intro u hu
    simpa using hno u hu
  have hb2 : t.jti ∉ bl := by simpa using hb
  have hmain : refreshEndpoint users bl (some t) =
      RefreshResp.ok { claims := t.claims, refresh_time := false } t := by
    simp [refreshEndpoint, hv, hb2, huid, hfind]
  refine ⟨hmain, ?_, hnu, hne⟩
  rw [hmain]
  rfl

theorem c9_refresh_unknown_user_witness :
    refreshEndpoint [⟨1, "u", "u@x", "p", true⟩] []
        (some ⟨"jti7", true, { user_id := some 2 }⟩) =
      RefreshResp.ok
        { claims := { user_id := some 2 }, refresh_time := false }
        ⟨"jti7", true, { user_id := some 2 }⟩ ∧
    (refreshEndpoint [⟨1, "u", "u@x", "p", true⟩] []
        (some ⟨"jti7", true, { user_id := some 2 }⟩)).statusCode = 200 ∧
    (AccessOut.mk { user_id := some 2 } false).claims.username = none ∧
    (AccessOut.mk { user_id := some 2 } false).claims.email = none :=
  c9_refresh_unknown_user [⟨1, "u", "u@x", "p", true⟩] []
    ⟨"jti7", true, { user_id := some 2 }⟩ 2
    (by decide) (by decide) (by decide) (by decide) (by decide) (by decide)

/-- C6: any two failing login requests that both supply a (post-strip)
non-empty identifier and a non-empty password receive the identical
generic response — the single 401 "Invalid credentials or inactive
account" constant — regardless of whether the identifier matched no
account, the password was wrong, or the account was inactive: the
failure hypothesis `¬ loginSucceedsFor` is exactly the union of those
three causes, and every failing path of the view falls through to the
same constant response. -/
theorem c6_failure_responses_identical (users : List UserRec)
    (id1 pwd1 id2 pwd2 : String)
    (hn : usernamesUnique users)
    (h1i : pyStrip id1 ≠ "") (h1p : pwd1 ≠ "")
    (h2i : pyStrip id2 ≠ "") (h2p : pwd2 ≠ "")
    (h1 : ¬ loginSucceedsFor users (pyStrip id1) pwd1)
    (h2 : ¬ loginSucceedsFor users (pyStrip id2) pwd2) :
    login users id1 pwd1 = login users id2 pwd2 ∧
    login users id1 pwd1 = LoginResp.invalidCredentials ∧
    (login users id1 pwd1).statusCode = 401 := by
  have e1 := login_of_not_succeeds hn h1i h1p h1
  have e2 := login_of_not_succeeds hn h2i h2p h2
  rw [e1, e2]
  exact ⟨rfl, rfl, rfl⟩

theorem c6_failure_responses_witness :
    login [⟨1, "alice", "alice@x.com", "pw", true⟩] "bob" "z" =
      login [⟨1, "alice", "alice@x.com", "pw", true⟩] "alice" "wrong" ∧
    login [⟨1, "alice", "alice@x.com", "pw", true⟩] "bob" "z" =
      LoginResp.invalidCredentials ∧
    (login [⟨1, "alice", "alice@x.com", "pw", true⟩] "bob" "z").statusCode = 401 :=
  c6_failure_responses_identical [⟨1, "alice", "alice@x.com", "pw", true⟩]
    "bob" "z" "alice" "wrong"
    (by decide) (by decide) (by decide) (by decide) (by decide)
    (by decide) (by decide)

/-- C7 counterexample: `email` carries no uniqueness constraint on the
`User` model, so two active users can share an email.  Then
`User.objects.get(email=..., is_active=True)` raises
`MultipleObjectsReturned`, the outer `except` swallows it, and login
answers the generic 401 even though username authentication failed and
an active user with that email and a matching password exists — the
claim fails on this store. -/
theorem c7_counterexample :
    authenticate [⟨1, "u1", "e@x", "p1", true⟩, ⟨2, "u2", "e@x", "p2", true⟩]
      "e@x" "p2" = none ∧
    (⟨2, "u2", "e@x", "p2", true⟩ : UserRec) ∈
      [⟨1, "u1", "e@x", "p1", true⟩, (⟨2, "u2", "e@x", "p2", true⟩ : UserRec)] ∧
    usernamesUnique [⟨1, "u1", "e@x", "p1", true⟩, ⟨2, "u2", "e@x", "p2", true⟩] ∧
    login [⟨1, "u1", "e@x", "p1", true⟩, ⟨2, "u2", "e@x", "p2", true⟩]
      "e@x" "p2" = LoginResp.invalidCredentials := by
  refine ⟨by decide, by decide, by decide, by decide⟩

/-- C7 (amended): when username authentication fails but EXACTLY ONE
active user holds the identifier as email and that user's password
matches, login succeeds through the email fallback, re-authenticating
under that user's username and returning that user with its tokens. -/
theorem c7_email_fallback_success (users : List UserRec) (ident pwd : String)
    (u : UserRec) (hn : usernamesUnique users)
    (hstrip : pyStrip ident = ident) (hi : ident ≠ "") (hp : pwd ≠ "")
    (ha : authenticate users ident pwd = none)
    (he : activeByEmail users ident = [u])
    (hpw : u.password = pwd) :
    login users ident pwd = LoginResp.success u (accessFor u) (refreshFor u) := by
  obtain ⟨hmu, hem, hac⟩ := activeByEmail_single he
  have hg : getByEmailActive users ident = some u := by
    unfold getByEmailActive
    rw [he]
  have ha2 : authenticate users u.username pwd = some u := by
    unfold authenticate
    rw [find?_username_self hn hmu]
    show (if u.password == pwd && u.is_active then some u else none) = some u
    rw [if_pos (by simp [hpw, hac])]
  unfold login
  rw [hstrip]
  rw [if_neg (by push_neg; exact ⟨hi, hp⟩)]
  simp [ha, hg, ha2, hac]

theorem c7_email_fallback_witness :
    login [⟨1, "alice", "alice@x.com", "Str0ngPass", true⟩]
        "alice@x.com" "Str0ngPass" =
      LoginResp.success ⟨1, "alice", "alice@x.com", "Str0ngPass", true⟩
        (accessFor ⟨1, "alice", "alice@x.com", "Str0ngPass", true⟩)
        (refreshFor ⟨1, "alice", "alice@x.com", "Str0ngPass", true⟩) :=
  c7_email_fallback_success [⟨1, "alice", "alice@x.com", "Str0ngPass", true⟩]
    "alice@x.com" "Str0ngPass" ⟨1, "alice", "alice@x.com", "Str0ngPass", true⟩
    (by decide) (by decide) (by decide) (by decide) (by decide) (by decide)
    (by decide)
